import Mathlib

/-!
# Verification of the Mia Notion backend (`src/main.py`)

A shallow embedding of the property builders, record summarizers and query
filter construction of the FastAPI service in `src/main.py`, together with
proofs settling the frozen claims about its specification.

Python values flowing through the Notion client are modelled by a JSON-like
inductive type `Json`; Python `int` and `float` are kept distinct (`Json.int`
vs `Json.float`, the latter carried as a rational), since claims about
numeric narrowing depend on the distinction.  Code that can raise a Python
exception (attribute errors on wrongly-shaped payloads) is embedded in
`Except PyErr`.
-/

/-- A Python/JSON value as the Notion client sees it. -/
inductive Json where
  | null : Json
  | bool (b : Bool) : Json
  | int (i : Int) : Json
  | float (q : ℚ) : Json
  | str (s : String) : Json
  | arr (elems : List Json) : Json
  | obj (fields : List (String × Json)) : Json

/-- A Python exception kind relevant to the embedded code. -/
inductive PyErr where
  | attributeError : PyErr
  | typeError : PyErr
deriving DecidableEq, Repr

/-- First-match association lookup, as a Python `dict.get(key)` behaves on the
insertion-ordered association lists we use to model dicts. -/
def jlookup : List (String × Json) → String → Option Json
  | [], _ => none
  | (k, v) :: rest, key => if k = key then some v else jlookup rest key

/-- Python truthiness of a `Json` value (`if x:`). -/
def truthy : Json → Bool
  | .null => false
  | .bool b => b
  | .int i => i != 0
  | .float q => q != 0
  | .str s => s != ""
  | .arr xs => !xs.isEmpty
  | .obj m => !m.isEmpty

/-- Python truthiness of an `Optional[str]` (`if body.field:`). -/
def truthyOptStr : Option String → Bool
  | none => false
  | some s => s != ""

example : truthy (.obj []) = false := by decide
example : jlookup [("a", .int 1), ("b", .int 2)] "b" = some (.int 2) := rfl

/-!
## Field extractors (`_extract_*` helpers, src/main.py lines 39-79)

Each helper receives the per-column property payload and returns the
normalized value.  Python raises `AttributeError` when `.get` is called on a
non-dict and `TypeError` when `"".join` meets a non-string or iteration meets
a non-iterable; both raise paths are kept.
-/

/-- Python `"".join(part.get("plain_text", "") for part in parts)` over a list of
span payloads: concatenates each span's `plain_text` (default `""`); a
non-dict span raises `AttributeError`, a non-string `plain_text` raises
`TypeError` in the join, first offender first. -/
def joinPlainText : List Json → Except PyErr String
  | [] => .ok ""
  | p :: rest =>
    match p with
    | .obj pm =>
      match (jlookup pm "plain_text").getD (.str "") with
      | .str s => (joinPlainText rest).map (fun r => s ++ r)
      | _ => .error .typeError
    | _ => .error .attributeError

/-- Python `"".join(part.get("plain_text", "") for part in value)` where `value` is
the (truthy) payload under the span-list key: iterating a string yields
characters and a dict yields keys, on which `.get` raises `AttributeError`;
a non-iterable truthy value raises `TypeError`. -/
def joinSpans : Json → Except PyErr String
  | .arr parts => joinPlainText parts
  | .str _ => .error .attributeError
  | .obj _ => .error .attributeError
  | _ => .error .typeError

/-- Common shape of `_extract_title` / `_extract_rich_text`: read `key` from
the property payload (`AttributeError` when the payload is not a dict),
return `None` when falsy, else join the spans' plain text. -/
def extractSpansText (key : String) (prop : Json) : Except PyErr Json :=
  match prop with
  | .obj m =>
    let spans := (jlookup m key).getD .null
    if truthy spans then (joinSpans spans).map Json.str
    else .ok .null
  | _ => .error .attributeError

/-- Source `_extract_title` (src/main.py lines 39-43). -/
def extract_title (prop : Json) : Except PyErr Json :=
  extractSpansText "title" prop

/-- Source `_extract_rich_text` (src/main.py lines 46-50). -/
def extract_rich_text (prop : Json) : Except PyErr Json :=
  extractSpansText "rich_text" prop

/-- Common shape of `_extract_select_name` / `_extract_date_start`: read
`outer` from the payload, return `None` when falsy, else `.get(inner)` on it
(`AttributeError` when it is not a dict). -/
def extractNested (outer inner : String) (prop : Json) : Except PyErr Json :=
  match prop with
  | .obj m =>
    let v := (jlookup m outer).getD .null
    if truthy v then
      match v with
      | .obj vm => .ok ((jlookup vm inner).getD .null)
      | _ => .error .attributeError
    else .ok .null
  | _ => .error .attributeError

/-- Source `_extract_select_name` (src/main.py lines 53-57). -/
def extract_select_name (prop : Json) : Except PyErr Json :=
  extractNested "select" "name" prop

/-- Source `_extract_date_start` (src/main.py lines 67-71). -/
def extract_date_start (prop : Json) : Except PyErr Json :=
  extractNested "date" "start" prop

/-- Python `[x.get("name") for x in xs]`: each element must be a dict
(`AttributeError` otherwise); a missing `name` yields `None`. -/
def multiSelectNames : List Json → Except PyErr (List Json)
  | [] => .ok []
  | x :: rest =>
    match x with
    | .obj xm => (multiSelectNames rest).map
        (fun r => (jlookup xm "name").getD .null :: r)
    | _ => .error .attributeError

/-- Source `_extract_multi_select_names` (src/main.py lines 60-64): `[]` when the
`multi_select` payload is absent or falsy, else the list of the elements'
`name` fields in order. -/
def extract_multi_select_names (prop : Json) : Except PyErr Json :=
  match prop with
  | .obj m =>
    let ms := (jlookup m "multi_select").getD .null
    if truthy ms then
      match ms with
      | .arr xs => (multiSelectNames xs).map Json.arr
      | .str _ => .error .attributeError
      | .obj _ => .error .attributeError
      | _ => .error .typeError
    else .ok (.arr [])
  | _ => .error .attributeError

/-- Source `_extract_number` (src/main.py lines 74-75): `prop.get("number")`,
whatever is stored, unchanged. -/
def extract_number (prop : Json) : Except PyErr Json :=
  match prop with
  | .obj m => .ok ((jlookup m "number").getD .null)
  | _ => .error .attributeError

/-- Source `_extract_checkbox` (src/main.py lines 78-79): `prop.get("checkbox")`,
unchanged. -/
def extract_checkbox (prop : Json) : Except PyErr Json :=
  match prop with
  | .obj m => .ok ((jlookup m "checkbox").getD .null)
  | _ => .error .attributeError

/-!
## Property payload shapes

The builders inline the same wire shapes everywhere
(e.g. `{"title": [{"text": {"content": v}}]}` in
`build_notion_task_properties` line 137 and `update_notion_task` line 251);
they are factored here once per shape.
-/

/-- Shape `{"title": [{"text": {"content": s}}]}`. -/
def titleProp (s : String) : Json :=
  .obj [("title", .arr [.obj [("text", .obj [("content", .str s)])]])]

/-- Shape `{"rich_text": [{"text": {"content": s}}]}`. -/
def richTextProp (s : String) : Json :=
  .obj [("rich_text", .arr [.obj [("text", .obj [("content", .str s)])]])]

/-- Shape `{"select": {"name": s}}`. -/
def selectProp (s : String) : Json :=
  .obj [("select", .obj [("name", .str s)])]

/-- Shape `{"date": {"start": s}}`. -/
def dateProp (s : String) : Json :=
  .obj [("date", .obj [("start", .str s)])]

/-- Shape `{"number": n}`. -/
def numberProp (n : Json) : Json :=
  .obj [("number", n)]

/-- Shape `{"checkbox": b}`. -/
def checkboxProp (b : Bool) : Json :=
  .obj [("checkbox", .bool b)]

/-- Modelled from the spec: the MultiSelect encoder ("encode maps a list of
strings to a list of `{name: v}` objects, preserving input order, no
de-duplication").  No builder in `src/main.py` writes a `multi_select`
property; only the decoder `_extract_multi_select_names` exists there. -/
def multiSelectProp (vs : List String) : Json :=
  .obj [("multi_select", .arr (vs.map fun v => .obj [("name", .str v)]))]

/-!
## Property builders

A `PropertySet` is the insertion-ordered dict the builders construct,
modelled as an association list.  The two Python presence idioms are kept
apart: `if body.field:` (string truthiness — skips `""`) versus
`if body.field is not None:`.
-/

/-- One optional entry guarded by Python string truthiness
(`if body.field: props[k] = ...`). -/
def addIfTruthy (o : Option String) (entry : String → String × Json) :
    List (String × Json) :=
  match o with
  | none => []
  | some s => if s = "" then [] else [entry s]

/-- One optional entry guarded by `is not None`
(`if body.field is not None: props[k] = ...`). -/
def addIfSome {α : Type} (o : Option α) (entry : α → String × Json) :
    List (String × Json) :=
  match o with
  | none => []
  | some v => [entry v]

/-- Source `CreateNotionTaskRequest` (src/main.py lines 86-94). -/
structure CreateNotionTaskRequest where
  task_title : String
  priority : Option String := none
  planned_date : Option String := none
  deadline : Option String := none
  duration : Option Int := none
  energy_required : Option String := none
  area : Option String := none
  notes : Option String := none

/-- Source `build_notion_task_properties` (src/main.py lines 134-162): the create
variant of the task property builder.  `duration` is guarded by
`is not None`; every other optional field by truthiness. -/
def build_notion_task_properties (body : CreateNotionTaskRequest) :
    List (String × Json) :=
  [("Tarefa", titleProp body.task_title)]
  ++ addIfTruthy body.priority (fun s => ("Prioridade", selectProp s))
  ++ addIfTruthy body.planned_date (fun s => ("Data Planeada", dateProp s))
  ++ addIfTruthy body.deadline (fun s => ("Deadline", dateProp s))
  ++ addIfSome body.duration (fun n => ("Duração Estimada (min)", numberProp (.int n)))
  ++ addIfTruthy body.energy_required (fun s => ("Energia Necessária", selectProp s))
  ++ addIfTruthy body.area (fun s => ("Área da Vida", selectProp s))
  ++ addIfTruthy body.notes (fun s => ("Notas", richTextProp s))

/-- Source `UpdateNotionTaskRequest` (src/main.py lines 102-111). -/
structure UpdateNotionTaskRequest where
  task_title : Option String := none
  status : Option String := none
  priority : Option String := none
  planned_date : Option String := none
  deadline : Option String := none
  duration : Option Int := none
  energy_required : Option String := none
  area : Option String := none
  notes : Option String := none

/-- The property dict built inline by `update_notion_task`
(src/main.py lines 247-284): every field is guarded by `is not None`. -/
def update_notion_task_properties (body : UpdateNotionTaskRequest) :
    List (String × Json) :=
  addIfSome body.task_title (fun s => ("Tarefa", titleProp s))
  ++ addIfSome body.status (fun s => ("Estado", selectProp s))
  ++ addIfSome body.priority (fun s => ("Prioridade", selectProp s))
  ++ addIfSome body.planned_date (fun s => ("Data Planeada", dateProp s))
  ++ addIfSome body.deadline (fun s => ("Deadline", dateProp s))
  ++ addIfSome body.duration (fun n => ("Duração Estimada (min)", numberProp (.int n)))
  ++ addIfSome body.energy_required (fun s => ("Energia Necessária", selectProp s))
  ++ addIfSome body.area (fun s => ("Área da Vida", selectProp s))
  ++ addIfSome body.notes (fun s => ("Notas", richTextProp s))

/-- Source `CreateMovieRequest` (src/main.py lines 320-324).  `watched` defaults to
`False` in the source model (not `None`), kept here. -/
structure CreateMovieRequest where
  title : String
  watched : Option Bool := some false
  category : Option String := none
  notes : Option String := none

/-- Source `build_movie_properties` (src/main.py lines 351-367): `category` and
`notes` guarded by truthiness, `watched` by `is not None`. -/
def build_movie_properties (body : CreateMovieRequest) :
    List (String × Json) :=
  [("Filme", titleProp body.title)]
  ++ addIfTruthy body.category (fun s => ("Categoria", selectProp s))
  ++ addIfSome body.watched (fun b => ("Já Vi", checkboxProp b))
  ++ addIfTruthy body.notes (fun s => ("Notas", richTextProp s))

/-- Source `UpdateMovieRequest` (src/main.py lines 339-343). -/
structure UpdateMovieRequest where
  title : Option String := none
  watched : Option Bool := none
  category : Option String := none
  notes : Option String := none

/-- The property dict built inline by `update_movie`
(src/main.py lines 441-455), all fields guarded by `is not None`. -/
def update_movie_properties (body : UpdateMovieRequest) :
    List (String × Json) :=
  addIfSome body.title (fun s => ("Filme", titleProp s))
  ++ addIfSome body.category (fun s => ("Categoria", selectProp s))
  ++ addIfSome body.watched (fun b => ("Já Vi", checkboxProp b))
  ++ addIfSome body.notes (fun s => ("Notas", richTextProp s))

/-- Source `UpdateBookRequest` (src/main.py lines 512-517). -/
structure UpdateBookRequest where
  title : Option String := none
  author : Option String := none
  status : Option String := none
  favorite : Option Bool := none
  notes : Option String := none

/-- The property dict built inline by `update_book`
(src/main.py lines 625-642), all fields guarded by `is not None`. -/
def update_book_properties (body : UpdateBookRequest) :
    List (String × Json) :=
  addIfSome body.title (fun s => ("Título", titleProp s))
  ++ addIfSome body.author (fun s => ("Autor", richTextProp s))
  ++ addIfSome body.status (fun s => ("Estado de leitura", selectProp s))
  ++ addIfSome body.favorite (fun b => ("Favorito", checkboxProp b))
  ++ addIfSome body.notes (fun s => ("Notas", richTextProp s))

/-- Source `UpdateQuoteRequest` (src/main.py lines 700-706). -/
structure UpdateQuoteRequest where
  text : Option String := none
  author : Option String := none
  source : Option String := none
  category : Option String := none
  favorite : Option Bool := none
  notes : Option String := none

/-- The property dict built inline by `update_quote`
(src/main.py lines 829-849), all fields guarded by `is not None`. -/
def update_quote_properties (body : UpdateQuoteRequest) :
    List (String × Json) :=
  addIfSome body.text (fun s => ("Texto", titleProp s))
  ++ addIfSome body.author (fun s => ("Autor", richTextProp s))
  ++ addIfSome body.source (fun s => ("Fonte", richTextProp s))
  ++ addIfSome body.category (fun s => ("Categoria", selectProp s))
  ++ addIfSome body.favorite (fun b => ("Favorita", checkboxProp b))
  ++ addIfSome body.notes (fun s => ("Notas", richTextProp s))

/-- Source `CreateNoteRequest` (src/main.py lines 885-892). -/
structure CreateNoteRequest where
  title : String
  category : Option String := none
  emotional_energy : Option String := none
  impact : Option String := none
  favorite : Option Bool := none
  date : Option String := none
  details : Option String := none

/-- Source `build_note_properties` (src/main.py lines 925-952): `favorite` guarded
by `is not None`, every other optional field by truthiness (including the
`date` field, line 944). -/
def build_note_properties (body : CreateNoteRequest) :
    List (String × Json) :=
  [("Título / Nota", titleProp body.title)]
  ++ addIfTruthy body.category (fun s => ("Categoria", selectProp s))
  ++ addIfTruthy body.emotional_energy (fun s => ("Energia emocional", selectProp s))
  ++ addIfTruthy body.impact (fun s => ("Impacto", selectProp s))
  ++ addIfSome body.favorite (fun b => ("Favorito", checkboxProp b))
  ++ addIfTruthy body.date (fun s => ("Data", dateProp s))
  ++ addIfTruthy body.details (fun s => ("Notas detalhadas", richTextProp s))

/-- Source `UpdateNoteRequest` (src/main.py lines 910-917). -/
structure UpdateNoteRequest where
  title : Option String := none
  category : Option String := none
  emotional_energy : Option String := none
  impact : Option String := none
  favorite : Option Bool := none
  date : Option String := none
  details : Option String := none

/-- The property dict built inline by `update_note`
(src/main.py lines 1053-1080), all fields guarded by `is not None`. -/
def update_note_properties (body : UpdateNoteRequest) :
    List (String × Json) :=
  addIfSome body.title (fun s => ("Título / Nota", titleProp s))
  ++ addIfSome body.category (fun s => ("Categoria", selectProp s))
  ++ addIfSome body.emotional_energy (fun s => ("Energia emocional", selectProp s))
  ++ addIfSome body.impact (fun s => ("Impacto", selectProp s))
  ++ addIfSome body.favorite (fun b => ("Favorito", checkboxProp b))
  ++ addIfSome body.date (fun s => ("Data", dateProp s))
  ++ addIfSome body.details (fun s => ("Notas detalhadas", richTextProp s))

/-- Source `UpdateInvestmentRequest` (src/main.py lines 1146-1155); Python floats
modelled as rationals. -/
structure UpdateInvestmentRequest where
  asset : Option String := none
  quantity : Option ℚ := none
  average_price_usd : Option ℚ := none
  last_price_usd : Option ℚ := none
  aportes_totais_usd : Option ℚ := none
  saldo_atual_usd : Option ℚ := none
  lucro_usd : Option ℚ := none
  percent_lucro : Option ℚ := none
  tipo_ativo : Option String := none

/-- Source `build_investment_properties_from_update` (src/main.py lines 1197-1231):
writes only the fields sent, all guarded by `is not None`. -/
def build_investment_properties_from_update (body : UpdateInvestmentRequest) :
    List (String × Json) :=
  addIfSome body.asset (fun s => ("Ativo", titleProp s))
  ++ addIfSome body.quantity (fun q => ("Quantidade", numberProp (.float q)))
  ++ addIfSome body.average_price_usd (fun q => ("Preço Médio (USD)", numberProp (.float q)))
  ++ addIfSome body.last_price_usd (fun q => ("Último Preço Capturado (USD)", numberProp (.float q)))
  ++ addIfSome body.aportes_totais_usd (fun q => ("Aportes Totais (USD)", numberProp (.float q)))
  ++ addIfSome body.saldo_atual_usd (fun q => ("Saldo Atual (USD)", numberProp (.float q)))
  ++ addIfSome body.lucro_usd (fun q => ("Lucro (USD)", numberProp (.float q)))
  ++ addIfSome body.percent_lucro (fun q => ("% Lucro", numberProp (.float q)))
  ++ addIfSome body.tipo_ativo (fun s => ("Tipo de Ativo", selectProp s))

/-!
## Record summarizer (tasks hub)

`page_to_task_summary` (src/main.py lines 165-176).  The summary's fields
are kept as raw `Json` values (the pydantic response-model validation is not
modelled); the set of columns read and the raise behaviour of the extractors
are what the claims are about.
-/

/-- The source's `TaskSummary` model (src/main.py lines 119-127): note it has
no duration field. -/
structure TaskSummary where
  task_id : Json
  task_title : Json
  planned_date : Json
  deadline : Json
  priority : Json
  state : Json
  area : Json
  url : Json

/-- Source `page_to_task_summary` (src/main.py lines 165-176): reads
`page.get("properties", {})` and decodes the six mapped columns, defaulting
each absent column's payload to `{}`. -/
def page_to_task_summary (page : Json) : Except PyErr TaskSummary :=
  match page with
  | .obj pm =>
    match (jlookup pm "properties").getD (.obj []) with
    | .obj props => do
      let t ← extract_title ((jlookup props "Tarefa").getD (.obj []))
      let pd ← extract_date_start ((jlookup props "Data Planeada").getD (.obj []))
      let dl ← extract_date_start ((jlookup props "Deadline").getD (.obj []))
      let pr ← extract_select_name ((jlookup props "Prioridade").getD (.obj []))
      let st ← extract_select_name ((jlookup props "Estado").getD (.obj []))
      let ar ← extract_select_name ((jlookup props "Área da Vida").getD (.obj []))
      pure { task_id := (jlookup pm "id").getD .null
             task_title := t
             planned_date := pd
             deadline := dl
             priority := pr
             state := st
             area := ar
             url := (jlookup pm "url").getD .null }
    | _ => .error .attributeError
  | _ => .error .attributeError

/-- A raw store record with the given id, url and property map, as the
summarizer consumes it. -/
def mkPage (pid purl : Json) (props : List (String × Json)) : Json :=
  .obj [("id", pid), ("url", purl), ("properties", .obj props)]

/-!
## Query filter construction

Each `GET` handler builds its Notion filter object before the store call;
these definitions are those filter-construction prefixes (src/main.py lines
200-225, 400-414, 578-598, 770-802, 991-1026, 1269-1305).
-/

/-- HTTP error responses the handlers raise before or instead of a store
call. -/
inductive HttpError where
  | badRequest (detail : String)
  | internalError (detail : String)

/-- Shape `{"property": col, "date": {"equals": d}}`. -/
def dateEqualsFilter (col d : String) : Json :=
  .obj [("property", .str col), ("date", .obj [("equals", .str d)])]

/-- The filter construction of `query_notion_tasks` (src/main.py lines
200-225): 400 when neither parameter is truthy, else a single date-equality
predicate on `Data Planeada` (preferred) or `Deadline`. -/
def query_notion_tasks_filter (planned_date deadline_date : Option String) :
    Except HttpError Json :=
  if !truthyOptStr planned_date && !truthyOptStr deadline_date then
    .error (.badRequest "É necessário indicar planned_date ou deadline_date.")
  else if truthyOptStr planned_date then
    .ok (dateEqualsFilter "Data Planeada" (planned_date.getD ""))
  else
    .ok (dateEqualsFilter "Deadline" (deadline_date.getD ""))

/-- The filter construction of `list_movies` (src/main.py lines 400-414):
`None` when `watched` is absent, else a checkbox equality predicate. -/
def list_movies_filter (watched : Option Bool) : Option Json :=
  match watched with
  | none => none
  | some w => some (.obj [("property", .str "Já Vi"),
      ("checkbox", .obj [("equals", .bool w)])])

/-- The filter construction of `list_books` (src/main.py lines 578-598):
`None` when `read` is absent, else select equals / does-not-equal `"Lido"`. -/
def list_books_filter (read : Option Bool) : Option Json :=
  match read with
  | none => none
  | some true => some (.obj [("property", .str "Estado de leitura"),
      ("select", .obj [("equals", .str "Lido")])])
  | some false => some (.obj [("property", .str "Estado de leitura"),
      ("select", .obj [("does_not_equal", .str "Lido")])])

/-- The author-contains predicate of `list_quotes` (src/main.py lines
785-789). -/
def quoteAuthorFilter (s : String) : Json :=
  .obj [("property", .str "Autor"), ("rich_text", .obj [("contains", .str s)])]

/-- The favorite-equals predicate of `list_quotes` (src/main.py lines
791-795). -/
def quoteFavoriteFilter (b : Bool) : Json :=
  .obj [("property", .str "Favorita"), ("checkbox", .obj [("equals", .bool b)])]

/-- The `filters` list of `list_quotes` (src/main.py lines 783-795): the
author predicate (string truthiness) then the favorite predicate
(`is not None`), in parameter order. -/
def list_quotes_filters (author : Option String) (favorite : Option Bool) :
    List Json :=
  (match author with
   | some s => if s = "" then [] else [quoteAuthorFilter s]
   | none => []) ++
  (match favorite with
   | some b => [quoteFavoriteFilter b]
   | none => [])

/-- The combination step shared verbatim by `list_quotes` (lines 797-802),
`list_notes` (lines 1021-1026) and `list_investments` (lines 1299-1305):
no predicates → `None`; one → that predicate; several → `{"and": [...]}`. -/
def combine_filters : List Json → Option Json
  | [] => none
  | [f] => some f
  | fs => some (.obj [("and", .arr fs)])

/-- The complete filter of `list_quotes` (src/main.py lines 783-802). -/
def list_quotes_filter (author : Option String) (favorite : Option Bool) :
    Option Json :=
  combine_filters (list_quotes_filters author favorite)

/-- The favorite-equals predicate of `list_notes` (src/main.py lines
1009-1013). -/
def noteFavoriteFilter (b : Bool) : Json :=
  .obj [("property", .str "Favorito"), ("checkbox", .obj [("equals", .bool b)])]

/-- The category-equals predicate of `list_notes` (src/main.py lines
1015-1019). -/
def noteCategoryFilter (s : String) : Json :=
  .obj [("property", .str "Categoria"), ("select", .obj [("equals", .str s)])]

/-- The `filters` list of `list_notes` (src/main.py lines 1007-1019): the
favorite predicate (`is not None`) then the category predicate (string
truthiness), in parameter order. -/
def list_notes_filters (favorite : Option Bool) (category : Option String) :
    List Json :=
  (match favorite with
   | some b => [noteFavoriteFilter b]
   | none => []) ++
  (match category with
   | some s => if s = "" then [] else [noteCategoryFilter s]
   | none => [])

/-- The complete filter of `list_notes` (src/main.py lines 1007-1026). -/
def list_notes_filter (favorite : Option Bool) (category : Option String) :
    Option Json :=
  combine_filters (list_notes_filters favorite category)

/-- The `filters` list of `list_investments` (src/main.py lines 1280-1297):
asset-title-contains (string truthiness) then the profit sign predicate. -/
def list_investments_filters (asset : Option String)
    (only_profitable : Option Bool) : List Json :=
  (match asset with
   | some s => if s = "" then []
       else [.obj [("property", .str "Ativo"),
         ("title", .obj [("contains", .str s)])]]
   | none => []) ++
  (match only_profitable with
   | some true => [.obj [("property", .str "Lucro (USD)"),
       ("number", .obj [("greater_than", .int 0)])]]
   | some false => [.obj [("property", .str "Lucro (USD)"),
       ("number", .obj [("less_than", .int 0)])]]
   | none => [])

/-- The complete filter of `list_investments` (src/main.py lines
1280-1305). -/
def list_investments_filter (asset : Option String)
    (only_profitable : Option Bool) : Option Json :=
  combine_filters (list_investments_filters asset only_profitable)

/-!
## Partial-update handlers

Each `PATCH` handler builds its property dict, rejects an empty dict with a
400 before any store interaction, then issues exactly one
`notion.pages.update` call.  The store client is a parameter
`store : String → List (String × Json) → Except String Json` (page id and
properties in, the store's response record or an exception message out), and
each handler also returns the list of store calls it issued, so that "no
store call happened" is part of the result.  The `_X_db_or_500`
configuration guards are assumed satisfied (the ids are configured).
-/

/-- One `notion.pages.update(page_id=..., properties=...)` call. -/
structure StoreCall where
  page_id : String
  properties : List (String × Json)

/-- Source `UpdateNotionTaskResponse` (src/main.py lines 114-116). -/
structure UpdateNotionTaskResponse where
  task_id : String
  updated_fields : List String

/-- Source `update_notion_task` (src/main.py lines 242-303): empty property dict →
400 with no store call; store failure → 400; success → the path id echoed
with the property dict's keys in insertion order. -/
def update_notion_task (body : UpdateNotionTaskRequest) (taskId : String)
    (store : String → List (String × Json) → Except String Json) :
    List StoreCall × Except HttpError UpdateNotionTaskResponse :=
  let properties := update_notion_task_properties body
  if properties.isEmpty then
    ([], .error (.badRequest "Nenhum campo para actualizar."))
  else
    match store taskId properties with
    | .error e => ([⟨taskId, properties⟩],
        .error (.badRequest ("Erro ao actualizar tarefa no Notion: " ++ e)))
    | .ok _ => ([⟨taskId, properties⟩],
        .ok ⟨taskId, properties.map Prod.fst⟩)

/-- Source `UpdateMovieResponse` (src/main.py lines 346-348). -/
structure UpdateMovieResponse where
  movie_id : String
  updated_fields : List String

/-- Source `update_movie` (src/main.py lines 434-474). -/
def update_movie (body : UpdateMovieRequest) (movieId : String)
    (store : String → List (String × Json) → Except String Json) :
    List StoreCall × Except HttpError UpdateMovieResponse :=
  let properties := update_movie_properties body
  if properties.isEmpty then
    ([], .error (.badRequest "Nenhum campo para actualizar."))
  else
    match store movieId properties with
    | .error e => ([⟨movieId, properties⟩],
        .error (.badRequest ("Erro ao actualizar filme no Notion: " ++ e)))
    | .ok _ => ([⟨movieId, properties⟩],
        .ok ⟨movieId, properties.map Prod.fst⟩)

/-- Source `UpdateBookResponse` (src/main.py lines 520-522). -/
structure UpdateBookResponse where
  book_id : String
  updated_fields : List String

/-- Source `update_book` (src/main.py lines 618-661). -/
def update_book (body : UpdateBookRequest) (bookId : String)
    (store : String → List (String × Json) → Except String Json) :
    List StoreCall × Except HttpError UpdateBookResponse :=
  let properties := update_book_properties body
  if properties.isEmpty then
    ([], .error (.badRequest "Nenhum campo para actualizar."))
  else
    match store bookId properties with
    | .error e => ([⟨bookId, properties⟩],
        .error (.badRequest ("Erro ao actualizar livro no Notion: " ++ e)))
    | .ok _ => ([⟨bookId, properties⟩],
        .ok ⟨bookId, properties.map Prod.fst⟩)

/-- Source `UpdateQuoteResponse` (src/main.py lines 709-711). -/
structure UpdateQuoteResponse where
  quote_id : String
  updated_fields : List String

/-- Source `update_quote` (src/main.py lines 822-868). -/
def update_quote (body : UpdateQuoteRequest) (quoteId : String)
    (store : String → List (String × Json) → Except String Json) :
    List StoreCall × Except HttpError UpdateQuoteResponse :=
  let properties := update_quote_properties body
  if properties.isEmpty then
    ([], .error (.badRequest "Nenhum campo para actualizar."))
  else
    match store quoteId properties with
    | .error e => ([⟨quoteId, properties⟩],
        .error (.badRequest ("Erro ao actualizar frase no Notion: " ++ e)))
    | .ok _ => ([⟨quoteId, properties⟩],
        .ok ⟨quoteId, properties.map Prod.fst⟩)

/-- Source `UpdateNoteResponse` (src/main.py lines 920-922). -/
structure UpdateNoteResponse where
  note_id : String
  updated_fields : List String

/-- Source `update_note` (src/main.py lines 1046-1099). -/
def update_note (body : UpdateNoteRequest) (noteId : String)
    (store : String → List (String × Json) → Except String Json) :
    List StoreCall × Except HttpError UpdateNoteResponse :=
  let properties := update_note_properties body
  if properties.isEmpty then
    ([], .error (.badRequest "Nenhum campo para actualizar."))
  else
    match store noteId properties with
    | .error e => ([⟨noteId, properties⟩],
        .error (.badRequest ("Erro ao actualizar nota no Notion: " ++ e)))
    | .ok _ => ([⟨noteId, properties⟩],
        .ok ⟨noteId, properties.map Prod.fst⟩)

/-- Source `UpdateInvestmentResponse` (src/main.py lines 1158-1160). -/
structure UpdateInvestmentResponse where
  investment_id : String
  updated_fields : List String

/-- Source `update_investment` (src/main.py lines 1327-1353). -/
def update_investment (body : UpdateInvestmentRequest) (investmentId : String)
    (store : String → List (String × Json) → Except String Json) :
    List StoreCall × Except HttpError UpdateInvestmentResponse :=
  let properties := build_investment_properties_from_update body
  if properties.isEmpty then
    ([], .error (.badRequest "Nenhum campo para actualizar."))
  else
    match store investmentId properties with
    | .error e => ([⟨investmentId, properties⟩],
        .error (.badRequest ("Erro ao actualizar investimento no Notion: " ++ e)))
    | .ok _ => ([⟨investmentId, properties⟩],
        .ok ⟨investmentId, properties.map Prod.fst⟩)

/-!
## Spec-modelled filter trees

The specification describes filter shapes the source never builds; they are
written out here from the spec's words so the claims about them can be
stated.
-/

/-- Modelled from the spec: the overdue filter tree
`And[Predicate(deadline_column, Date, before, d), Predicate(state_column,
Select, not_equals, "done"), Predicate(state_column, Select, not_equals,
"cancelled")]`, with the tasks hub's column names.  Missing from the
source: `query_notion_tasks` accepts no `overdue` flag. -/
def overdue_filter_spec (d : String) : Json :=
  .obj [("and", .arr
    [ .obj [("property", .str "Deadline"), ("date", .obj [("before", .str d)])]
    , .obj [("property", .str "Estado"),
        ("select", .obj [("does_not_equal", .str "done")])]
    , .obj [("property", .str "Estado"),
        ("select", .obj [("does_not_equal", .str "cancelled")])] ])]

/-- Modelled from the spec: the default "active records" filter
`And[Predicate(state_column, Select, not_equals, "done"),
Predicate(state_column, Select, not_equals, "cancelled")]`.  Missing from
the source: no endpoint builds a default filter. -/
def default_active_filter_spec : Json :=
  .obj [("and", .arr
    [ .obj [("property", .str "Estado"),
        ("select", .obj [("does_not_equal", .str "done")])]
    , .obj [("property", .str "Estado"),
        ("select", .obj [("does_not_equal", .str "cancelled")])] ])]

/-!
## Helper lemmas
-/

/-- Keys contributed by a truthiness-guarded optional entry. -/
theorem addIfTruthy_keys (o : Option String) (k : String) (f : String → Json) :
    (addIfTruthy o (fun s => (k, f s))).map Prod.fst
      = if truthyOptStr o then [k] else [] := by
  cases o with
  | none => rfl
  | some s =>
    by_cases h : s = "" <;>
      simp [addIfTruthy, truthyOptStr, h]

/-- Keys contributed by an `is not None`-guarded optional entry. -/
theorem addIfSome_keys {α : Type} (o : Option α) (k : String) (f : α → Json) :
    (addIfSome o (fun v => (k, f v))).map Prod.fst
      = if o.isSome then [k] else [] := by
  cases o <;> rfl

/-- Decoding the spec-modelled MultiSelect encoding returns the names in
order, duplicates kept. -/
theorem multiSelectNames_roundtrip (vs : List String) :
    multiSelectNames (vs.map fun v => .obj [("name", .str v)])
      = .ok (vs.map Json.str) := by
  induction vs with
  | nil => rfl
  | cons v rest ih => simp [multiSelectNames, ih, jlookup, Except.map]

/-!
## Claims
-/

/-- **C1** (amended).  Field-codec round trip: for Select, Date, Number and
Checkbox, decoding the property built by the builders yields the value back;
for the spec-modelled MultiSelect encoding, decoding preserves order and
duplicates.  For Title and RichText the round trip fails: the builders write
the span as `{text: {content: v}}` while `_extract_title` /
`_extract_rich_text` concatenate the spans' `plain_text` keys (absent in the
built payload, defaulted to `""`), so `decode(encode(v)) = ""` for every
`v`. -/
theorem fieldCodec_roundtrip :
    (∀ v : String, extract_select_name (selectProp v) = .ok (.str v)) ∧
    (∀ v : String, extract_date_start (dateProp v) = .ok (.str v)) ∧
    (∀ n : Int, extract_number (numberProp (.int n)) = .ok (.int n)) ∧
    (∀ q : ℚ, extract_number (numberProp (.float q)) = .ok (.float q)) ∧
    (∀ b : Bool, extract_checkbox (checkboxProp b) = .ok (.bool b)) ∧
    (∀ vs : List String,
      extract_multi_select_names (multiSelectProp vs)
        = .ok (.arr (vs.map Json.str))) ∧
    (∀ v : String, extract_title (titleProp v) = .ok (.str "")) ∧
    (∀ v : String, extract_rich_text (richTextProp v) = .ok (.str "")) := by
  refine ⟨fun v => rfl, fun v => rfl, fun n => rfl, fun q => rfl, fun b => rfl,
    fun vs => ?_, fun v => rfl, fun v => rfl⟩
  cases vs with
  | nil => rfl
  | cons v rest =>
    have h := multiSelectNames_roundtrip (v :: rest)
    simp only [List.map_cons] at h
    simp [extract_multi_select_names, multiSelectProp, truthy, jlookup,
      Except.map, h]

/-- **C1** counterexample: the claim's round trip fails on the Title codec at
`v = "a"` — the decoder returns `""`, not `"a"`. -/
theorem fieldCodec_roundtrip_counterexample :
    extract_title (titleProp "a") = .ok (.str "") ∧
    Json.str "" ≠ Json.str "a" := by
  refine ⟨rfl, fun h => ?_⟩
  simp only [Json.str.injEq] at h
  exact absurd h (by decide)

/-- Keys of the create-task property dict, in check order. -/
theorem build_notion_task_properties_keys (b : CreateNotionTaskRequest) :
    (build_notion_task_properties b).map Prod.fst
      = "Tarefa" :: ((if truthyOptStr b.priority then ["Prioridade"] else [])
        ++ (if truthyOptStr b.planned_date then ["Data Planeada"] else [])
        ++ (if truthyOptStr b.deadline then ["Deadline"] else [])
        ++ (if b.duration.isSome then ["Duração Estimada (min)"] else [])
        ++ (if truthyOptStr b.energy_required then ["Energia Necessária"] else [])
        ++ (if truthyOptStr b.area then ["Área da Vida"] else [])
        ++ (if truthyOptStr b.notes then ["Notas"] else [])) := by
  simp [build_notion_task_properties, addIfTruthy_keys, addIfSome_keys]

/-- Keys of the update-task property dict, in check order. -/
theorem update_notion_task_properties_keys (u : UpdateNotionTaskRequest) :
    (update_notion_task_properties u).map Prod.fst
      = (if u.task_title.isSome then ["Tarefa"] else [])
        ++ (if u.status.isSome then ["Estado"] else [])
        ++ (if u.priority.isSome then ["Prioridade"] else [])
        ++ (if u.planned_date.isSome then ["Data Planeada"] else [])
        ++ (if u.deadline.isSome then ["Deadline"] else [])
        ++ (if u.duration.isSome then ["Duração Estimada (min)"] else [])
        ++ (if u.energy_required.isSome then ["Energia Necessária"] else [])
        ++ (if u.area.isSome then ["Área da Vida"] else [])
        ++ (if u.notes.isSome then ["Notas"] else []) := by
  simp [update_notion_task_properties, addIfSome_keys]

/-- Keys of the create-movie property dict, in check order. -/
theorem build_movie_properties_keys (b : CreateMovieRequest) :
    (build_movie_properties b).map Prod.fst
      = "Filme" :: ((if truthyOptStr b.category then ["Categoria"] else [])
        ++ (if b.watched.isSome then ["Já Vi"] else [])
        ++ (if truthyOptStr b.notes then ["Notas"] else [])) := by
  simp [build_movie_properties, addIfTruthy_keys, addIfSome_keys]

/-- Keys of the update-movie property dict, in check order. -/
theorem update_movie_properties_keys (u : UpdateMovieRequest) :
    (update_movie_properties u).map Prod.fst
      = (if u.title.isSome then ["Filme"] else [])
        ++ (if u.category.isSome then ["Categoria"] else [])
        ++ (if u.watched.isSome then ["Já Vi"] else [])
        ++ (if u.notes.isSome then ["Notas"] else []) := by
  simp [update_movie_properties, addIfSome_keys]

/-- **C2** (amended).  Absence semantics of the property builders (tasks hub,
with the movie builders for the `watched` example): a key is never inserted
for a `None` field; the partial-update builders insert for every present
value, falsy or not (`is not None` guards); the create builders insert
present-but-falsy `duration = 0` and `watched = false` (also `is not None`
guards) but skip present-but-empty strings such as `notes = ""`, whose guard
is Python truthiness. -/
theorem propertyBuilder_presence :
    (∀ b : CreateNotionTaskRequest, (build_notion_task_properties b).map Prod.fst
      = "Tarefa" :: ((if truthyOptStr b.priority then ["Prioridade"] else [])
        ++ (if truthyOptStr b.planned_date then ["Data Planeada"] else [])
        ++ (if truthyOptStr b.deadline then ["Deadline"] else [])
        ++ (if b.duration.isSome then ["Duração Estimada (min)"] else [])
        ++ (if truthyOptStr b.energy_required then ["Energia Necessária"] else [])
        ++ (if truthyOptStr b.area then ["Área da Vida"] else [])
        ++ (if truthyOptStr b.notes then ["Notas"] else []))) ∧
    (∀ u : UpdateNotionTaskRequest, (update_notion_task_properties u).map Prod.fst
      = (if u.task_title.isSome then ["Tarefa"] else [])
        ++ (if u.status.isSome then ["Estado"] else [])
        ++ (if u.priority.isSome then ["Prioridade"] else [])
        ++ (if u.planned_date.isSome then ["Data Planeada"] else [])
        ++ (if u.deadline.isSome then ["Deadline"] else [])
        ++ (if u.duration.isSome then ["Duração Estimada (min)"] else [])
        ++ (if u.energy_required.isSome then ["Energia Necessária"] else [])
        ++ (if u.area.isSome then ["Área da Vida"] else [])
        ++ (if u.notes.isSome then ["Notas"] else [])) ∧
    (∀ b : CreateMovieRequest, (build_movie_properties b).map Prod.fst
      = "Filme" :: ((if truthyOptStr b.category then ["Categoria"] else [])
        ++ (if b.watched.isSome then ["Já Vi"] else [])
        ++ (if truthyOptStr b.notes then ["Notas"] else []))) ∧
    (∀ u : UpdateMovieRequest, (update_movie_properties u).map Prod.fst
      = (if u.title.isSome then ["Filme"] else [])
        ++ (if u.category.isSome then ["Categoria"] else [])
        ++ (if u.watched.isSome then ["Já Vi"] else [])
        ++ (if u.notes.isSome then ["Notas"] else [])) :=
  ⟨build_notion_task_properties_keys, update_notion_task_properties_keys,
    build_movie_properties_keys, update_movie_properties_keys⟩

/-- **C2** counterexample: in the create variant, `notes = ""` is present but
falsy, and the builder inserts no `"Notas"` key — only the title column
appears. -/
theorem propertyBuilder_presence_counterexample :
    ({ task_title := "t", notes := some "" } :
        CreateNotionTaskRequest).notes = some "" ∧
    (build_notion_task_properties { task_title := "t", notes := some "" }).map
        Prod.fst = ["Tarefa"] :=
  ⟨rfl, rfl⟩

/-- **C3** (amended).  A query with no filter criteria: the tasks hub rejects
it with the 400 error `"É necessário indicar planned_date ou
deadline_date."`; the movies, books, quotes, notes and investments hubs
issue the query unfiltered (`None`).  No hub returns the spec's default
"active records" filter. -/
theorem noCriteria_query_behavior :
    query_notion_tasks_filter none none
        = .error (.badRequest "É necessário indicar planned_date ou deadline_date.") ∧
    list_movies_filter none = none ∧
    list_books_filter none = none ∧
    list_quotes_filter none none = none ∧
    list_notes_filter none none = none ∧
    list_investments_filter none none = none :=
  ⟨rfl, rfl, rfl, rfl, rfl, rfl⟩

/-- **C3** counterexample: on the tasks hub a no-criteria query fails the
request with a 400 — it returns neither the default active-records filter
nor `None`. -/
theorem noCriteria_query_counterexample :
    query_notion_tasks_filter none none
        = .error (.badRequest "É necessário indicar planned_date ou deadline_date.") ∧
    query_notion_tasks_filter none none ≠ .ok default_active_filter_spec :=
  ⟨rfl, fun h => Except.noConfusion h⟩

/-- **C4** (amended).  The tasks query endpoint supports no overdue flag:
its only parameters are `planned_date` and `deadline_date` (FastAPI drops
undeclared query parameters, so a request carrying only `overdue=true`
reaches the handler with both parameters `None` and is rejected with the
400).  Every outcome is either that 400 error or a single date-equality
predicate on `Data Planeada` or `Deadline`; the spec's
`And[before, not_equals "done", not_equals "cancelled"]` tree is never
produced. -/
theorem taskFilter_no_overdue (pd dl : Option String) :
    (query_notion_tasks_filter pd dl
        = .error (.badRequest "É necessário indicar planned_date ou deadline_date.")
      ∨ (∃ col d, (col = "Data Planeada" ∨ col = "Deadline")
          ∧ query_notion_tasks_filter pd dl = .ok (dateEqualsFilter col d)))
    ∧ (∀ d, query_notion_tasks_filter pd dl ≠ .ok (overdue_filter_spec d)) := by
  by_cases hp : truthyOptStr pd = true
  · constructor
    · right
      exact ⟨"Data Planeada", pd.getD "", Or.inl rfl, by
        simp [query_notion_tasks_filter, hp]⟩
    · intro d h
      simp [query_notion_tasks_filter, hp] at h
      simp [dateEqualsFilter, overdue_filter_spec] at h
  · by_cases hd : truthyOptStr dl = true
    · constructor
      · right
        exact ⟨"Deadline", dl.getD "", Or.inr rfl, by
          simp [query_notion_tasks_filter, hp, hd]⟩
      · intro d h
        simp [query_notion_tasks_filter, hp, hd] at h
        simp [dateEqualsFilter, overdue_filter_spec] at h
    · constructor
      · left
        simp [query_notion_tasks_filter, hp, hd]
      · intro d h
        simp [query_notion_tasks_filter, hp, hd] at h

/-- **C4** counterexample: a tasks query carrying only the (undeclared,
hence dropped) overdue flag reaches the handler with both declared
parameters `None`; at clock-date `2024-06-01` it yields the 400 error, not
the overdue filter tree. -/
theorem taskFilter_overdue_counterexample :
    query_notion_tasks_filter none none
        = .error (.badRequest "É necessário indicar planned_date ou deadline_date.") ∧
    query_notion_tasks_filter none none ≠ .ok (overdue_filter_spec "2024-06-01") :=
  ⟨rfl, fun h => Except.noConfusion h⟩

/-- **C5** (confirmed).  Independent non-date predicates (quotes hub:
author-contains then favorite-equals; notes hub: favorite-equals then
category-equals) combine as: none supplied → no filter (`None`); one →
exactly that predicate; both → an `and` node with the predicates in
parameter order. -/
theorem independentPredicate_combination :
    (list_quotes_filter none none = none) ∧
    (∀ s, s ≠ "" → list_quotes_filter (some s) none = some (quoteAuthorFilter s)) ∧
    (∀ b, list_quotes_filter none (some b) = some (quoteFavoriteFilter b)) ∧
    (∀ s b, s ≠ "" → list_quotes_filter (some s) (some b)
        = some (.obj [("and", .arr [quoteAuthorFilter s, quoteFavoriteFilter b])])) ∧
    (list_notes_filter none none = none) ∧
    (∀ b, list_notes_filter (some b) none = some (noteFavoriteFilter b)) ∧
    (∀ s, s ≠ "" → list_notes_filter none (some s) = some (noteCategoryFilter s)) ∧
    (∀ b s, s ≠ "" → list_notes_filter (some b) (some s)
        = some (.obj [("and", .arr [noteFavoriteFilter b, noteCategoryFilter s])])) := by
  refine ⟨rfl, fun s hs => ?_, fun b => rfl, fun s b hs => ?_, rfl,
    fun b => rfl, fun s hs => ?_, fun b s hs => ?_⟩ <;>
    simp [list_quotes_filter, list_quotes_filters, list_notes_filter,
      list_notes_filters, combine_filters, hs]

/-- **C6** (confirmed).  On every hub, a partial update whose fields are all
absent (`{}` body, all-`None`) builds an empty property dict and fails with
the 400 `"Nenhum campo para actualizar."` before any store call: the list
of issued store calls is empty, for every possible store behaviour. -/
theorem emptyUpdate_rejected :
    (∀ store, update_notion_task {} "t1" store
        = ([], .error (.badRequest "Nenhum campo para actualizar."))) ∧
    (∀ store, update_movie {} "m1" store
        = ([], .error (.badRequest "Nenhum campo para actualizar."))) ∧
    (∀ store, update_book {} "b1" store
        = ([], .error (.badRequest "Nenhum campo para actualizar."))) ∧
    (∀ store, update_quote {} "q1" store
        = ([], .error (.badRequest "Nenhum campo para actualizar."))) ∧
    (∀ store, update_note {} "n1" store
        = ([], .error (.badRequest "Nenhum campo para actualizar."))) ∧
    (∀ store, update_investment {} "i1" store
        = ([], .error (.badRequest "Nenhum campo para actualizar."))) :=
  ⟨fun _ => rfl, fun _ => rfl, fun _ => rfl, fun _ => rfl, fun _ => rfl,
    fun _ => rfl⟩

/-- Unfolding of the summarizer on a well-shaped page record. -/
theorem page_to_task_summary_mkPage (pid purl : Json)
    (props : List (String × Json)) :
    page_to_task_summary (mkPage pid purl props)
      = (extract_title ((jlookup props "Tarefa").getD (.obj []))).bind (fun t =>
        (extract_date_start ((jlookup props "Data Planeada").getD (.obj []))).bind (fun pd =>
        (extract_date_start ((jlookup props "Deadline").getD (.obj []))).bind (fun dl =>
        (extract_select_name ((jlookup props "Prioridade").getD (.obj []))).bind (fun pr =>
        (extract_select_name ((jlookup props "Estado").getD (.obj []))).bind (fun st =>
        (extract_select_name ((jlookup props "Área da Vida").getD (.obj []))).bind (fun ar =>
        Except.ok ⟨pid, t, pd, dl, pr, st, ar, purl⟩)))))) :=
  rfl

/-- **C7** (amended).  The task summarizer never raises on a record whose
mapped columns are all absent: each field decodes to the type default
(`None`; the multi-select extractor yields `[]` on an absent payload).  The
claim's further reach — "never raises even on malformed property payloads" —
is false (see the counterexample): a wrong-shaped payload raises. -/
theorem summarizer_missing_columns (pid purl : Json)
    (props : List (String × Json))
    (h1 : jlookup props "Tarefa" = none)
    (h2 : jlookup props "Data Planeada" = none)
    (h3 : jlookup props "Deadline" = none)
    (h4 : jlookup props "Prioridade" = none)
    (h5 : jlookup props "Estado" = none)
    (h6 : jlookup props "Área da Vida" = none) :
    page_to_task_summary (mkPage pid purl props)
        = .ok ⟨pid, .null, .null, .null, .null, .null, .null, purl⟩ ∧
    extract_multi_select_names (.obj []) = .ok (.arr []) := by
  rw [page_to_task_summary_mkPage, h1, h2, h3, h4, h5, h6]
  exact ⟨rfl, rfl⟩

/-- **C7** witness: the task summarizer at a record with an empty property
map yields the all-default summary. -/
theorem summarizer_missing_columns_witness :
    page_to_task_summary (mkPage (.str "id1") (.str "u") [])
        = .ok ⟨.str "id1", .null, .null, .null, .null, .null, .null, .str "u"⟩ ∧
    extract_multi_select_names (.obj []) = .ok (.arr []) :=
  summarizer_missing_columns (.str "id1") (.str "u") [] rfl rfl rfl rfl rfl rfl

/-- **C7** counterexample: the summarizer raises (`AttributeError`) on a
record whose title payload is malformed — a bare string where the span list
is expected — because the extractor iterates it and calls `.get` on a
character. -/
theorem summarizer_malformed_counterexample :
    page_to_task_summary (mkPage (.str "id1") Json.null
        [("Tarefa", .obj [("title", .str "oops")])]) = .error .attributeError :=
  rfl

/-- **C8** (amended).  Date encoding is verbatim: any non-empty string
supplied as a date is wrapped as `{date: {start: value}}` with no format
validation — a value carrying a time component is passed through to the
store unchanged, not rejected.  Shown for the task create builder, the task
update builder (where even `""` passes, its guard being `is not None`) and
the note create builder. -/
theorem date_encode_verbatim (s : String) (h : s ≠ "") :
    build_notion_task_properties { task_title := "t", planned_date := some s }
        = [("Tarefa", titleProp "t"), ("Data Planeada", dateProp s)] ∧
    update_notion_task_properties { planned_date := some s }
        = [("Data Planeada", dateProp s)] ∧
    build_note_properties { title := "t", date := some s }
        = [("Título / Nota", titleProp "t"), ("Data", dateProp s)] := by
  refine ⟨?_, rfl, ?_⟩ <;>
    simp [build_notion_task_properties, build_note_properties, addIfTruthy,
      addIfSome, h]

/-- **C8** witness: the theorem applied to the time-carrying date string
`"2024-06-01T10:00:00"`. -/
theorem date_encode_verbatim_witness :
    build_notion_task_properties
        { task_title := "t", planned_date := some "2024-06-01T10:00:00" }
        = [("Tarefa", titleProp "t"),
           ("Data Planeada", dateProp "2024-06-01T10:00:00")] ∧
    update_notion_task_properties { planned_date := some "2024-06-01T10:00:00" }
        = [("Data Planeada", dateProp "2024-06-01T10:00:00")] ∧
    build_note_properties { title := "t", date := some "2024-06-01T10:00:00" }
        = [("Título / Nota", titleProp "t"),
           ("Data", dateProp "2024-06-01T10:00:00")] :=
  date_encode_verbatim "2024-06-01T10:00:00" (by decide)

/-- **C8** counterexample: the claim says an input with a time component
fails the encode; instead the create builder succeeds and emits the full
string (no truncation, no error) as the `start` value. -/
theorem date_passthrough_counterexample :
    build_notion_task_properties
        { task_title := "t", planned_date := some "2024-06-01T10:00:00" }
      = [("Tarefa", titleProp "t"),
         ("Data Planeada", dateProp "2024-06-01T10:00:00")] :=
  rfl

/-- Appending an entry under a fresh key does not change other lookups. -/
theorem jlookup_append_single (l : List (String × Json)) (k k2 : String)
    (v : Json) (h : k2 ≠ k) :
    jlookup (l ++ [(k, v)]) k2 = jlookup l k2 := by
  induction l with
  | nil => simp [jlookup, Ne.symm h]
  | cons p rest ih =>
    obtain ⟨pk, pv⟩ := p
    by_cases hp : pk = k2 <;> simp [jlookup, hp, ih]

/-- **C9** (amended).  The task summarizer carries no duration field at all:
`TaskSummary` has no such column, and appending the
`"Duração Estimada (min)"` column to any record leaves the summary
unchanged.  `_extract_number` returns the stored number unchanged — there is
no float→int narrowing anywhere on the read path. -/
theorem duration_not_narrowed (pid purl : Json)
    (props : List (String × Json)) (q : ℚ) :
    page_to_task_summary
        (mkPage pid purl (props ++ [("Duração Estimada (min)", numberProp (.float q))]))
      = page_to_task_summary (mkPage pid purl props) ∧
    (∀ j : Json, extract_number (numberProp j) = .ok j) := by
  constructor
  · rw [page_to_task_summary_mkPage, page_to_task_summary_mkPage,
      jlookup_append_single _ _ _ _ (by decide),
      jlookup_append_single _ _ _ _ (by decide),
      jlookup_append_single _ _ _ _ (by decide),
      jlookup_append_single _ _ _ _ (by decide),
      jlookup_append_single _ _ _ _ (by decide),
      jlookup_append_single _ _ _ _ (by decide)]
  · intro j; rfl

/-- **C9** counterexample: a task record whose duration column holds the
float `12.0` — the extractor returns the raw float (not the integer `12`),
and the summarizer's output is identical to the record without the duration
column: the field is omitted, not narrowed. -/
theorem duration_narrowing_counterexample :
    extract_number (numberProp (.float 12)) = .ok (.float 12) ∧
    Json.float 12 ≠ Json.int 12 ∧
    page_to_task_summary (mkPage (.str "p") .null
        [("Tarefa", titleProp "t"), ("Duração Estimada (min)", numberProp (.float 12))])
      = page_to_task_summary (mkPage (.str "p") .null [("Tarefa", titleProp "t")]) :=
  ⟨rfl, fun h => Json.noConfusion h, rfl⟩

/-- Keys of the update-book property dict, in check order. -/
theorem update_book_properties_keys (u : UpdateBookRequest) :
    (update_book_properties u).map Prod.fst
      = (if u.title.isSome then ["Título"] else [])
        ++ (if u.author.isSome then ["Autor"] else [])
        ++ (if u.status.isSome then ["Estado de leitura"] else [])
        ++ (if u.favorite.isSome then ["Favorito"] else [])
        ++ (if u.notes.isSome then ["Notas"] else []) := by
  simp [update_book_properties, addIfSome_keys]

/-- Keys of the update-quote property dict, in check order. -/
theorem update_quote_properties_keys (u : UpdateQuoteRequest) :
    (update_quote_properties u).map Prod.fst
      = (if u.text.isSome then ["Texto"] else [])
        ++ (if u.author.isSome then ["Autor"] else [])
        ++ (if u.source.isSome then ["Fonte"] else [])
        ++ (if u.category.isSome then ["Categoria"] else [])
        ++ (if u.favorite.isSome then ["Favorita"] else [])
        ++ (if u.notes.isSome then ["Notas"] else []) := by
  simp [update_quote_properties, addIfSome_keys]

/-- Keys of the update-note property dict, in check order. -/
theorem update_note_properties_keys (u : UpdateNoteRequest) :
    (update_note_properties u).map Prod.fst
      = (if u.title.isSome then ["Título / Nota"] else [])
        ++ (if u.category.isSome then ["Categoria"] else [])
        ++ (if u.emotional_energy.isSome then ["Energia emocional"] else [])
        ++ (if u.impact.isSome then ["Impacto"] else [])
        ++ (if u.favorite.isSome then ["Favorito"] else [])
        ++ (if u.date.isSome then ["Data"] else [])
        ++ (if u.details.isSome then ["Notas detalhadas"] else []) := by
  simp [update_note_properties, addIfSome_keys]

/-- Keys of the update-investment property dict, in check order. -/
theorem build_investment_properties_from_update_keys (u : UpdateInvestmentRequest) :
    (build_investment_properties_from_update u).map Prod.fst
      = (if u.asset.isSome then ["Ativo"] else [])
        ++ (if u.quantity.isSome then ["Quantidade"] else [])
        ++ (if u.average_price_usd.isSome then ["Preço Médio (USD)"] else [])
        ++ (if u.last_price_usd.isSome then ["Último Preço Capturado (USD)"] else [])
        ++ (if u.aportes_totais_usd.isSome then ["Aportes Totais (USD)"] else [])
        ++ (if u.saldo_atual_usd.isSome then ["Saldo Atual (USD)"] else [])
        ++ (if u.lucro_usd.isSome then ["Lucro (USD)"] else [])
        ++ (if u.percent_lucro.isSome then ["% Lucro"] else [])
        ++ (if u.tipo_ativo.isSome then ["Tipo de Ativo"] else []) := by
  simp [build_investment_properties_from_update, addIfSome_keys]

/-- Response contract of `update_notion_task` on success. -/
theorem update_notion_task_ok_contract (body : UpdateNotionTaskRequest)
    (pid : String) (store : String → List (String × Json) → Except String Json)
    (r : UpdateNotionTaskResponse)
    (h : (update_notion_task body pid store).2 = .ok r) :
    r.task_id = pid ∧
    r.updated_fields = (update_notion_task_properties body).map Prod.fst := by
  unfold update_notion_task at h
  dsimp only at h
  split at h
  · simp at h
  · split at h
    · simp at h
    · simp only [Except.ok.injEq] at h
      subst h
      exact ⟨rfl, rfl⟩

/-- Response contract of `update_movie` on success. -/
theorem update_movie_ok_contract (body : UpdateMovieRequest)
    (pid : String) (store : String → List (String × Json) → Except String Json)
    (r : UpdateMovieResponse)
    (h : (update_movie body pid store).2 = .ok r) :
    r.movie_id = pid ∧
    r.updated_fields = (update_movie_properties body).map Prod.fst := by
  unfold update_movie at h
  dsimp only at h
  split at h
  · simp at h
  · split at h
    · simp at h
    · simp only [Except.ok.injEq] at h
      subst h
      exact ⟨rfl, rfl⟩

/-- Response contract of `update_book` on success. -/
theorem update_book_ok_contract (body : UpdateBookRequest)
    (pid : String) (store : String → List (String × Json) → Except String Json)
    (r : UpdateBookResponse)
    (h : (update_book body pid store).2 = .ok r) :
    r.book_id = pid ∧
    r.updated_fields = (update_book_properties body).map Prod.fst := by
  unfold update_book at h
  dsimp only at h
  split at h
  · simp at h
  · split at h
    · simp at h
    · simp only [Except.ok.injEq] at h
      subst h
      exact ⟨rfl, rfl⟩

/-- Response contract of `update_quote` on success. -/
theorem update_quote_ok_contract (body : UpdateQuoteRequest)
    (pid : String) (store : String → List (String × Json) → Except String Json)
    (r : UpdateQuoteResponse)
    (h : (update_quote body pid store).2 = .ok r) :
    r.quote_id = pid ∧
    r.updated_fields = (update_quote_properties body).map Prod.fst := by
  unfold update_quote at h
  dsimp only at h
  split at h
  · simp at h
  · split at h
    · simp at h
    · simp only [Except.ok.injEq] at h
      subst h
      exact ⟨rfl, rfl⟩

/-- Response contract of `update_note` on success. -/
theorem update_note_ok_contract (body : UpdateNoteRequest)
    (pid : String) (store : String → List (String × Json) → Except String Json)
    (r : UpdateNoteResponse)
    (h : (update_note body pid store).2 = .ok r) :
    r.note_id = pid ∧
    r.updated_fields = (update_note_properties body).map Prod.fst := by
  unfold update_note at h
  dsimp only at h
  split at h
  · simp at h
  · split at h
    · simp at h
    · simp only [Except.ok.injEq] at h
      subst h
      exact ⟨rfl, rfl⟩

/-- Response contract of `update_investment` on success. -/
theorem update_investment_ok_contract (body : UpdateInvestmentRequest)
    (pid : String) (store : String → List (String × Json) → Except String Json)
    (r : UpdateInvestmentResponse)
    (h : (update_investment body pid store).2 = .ok r) :
    r.investment_id = pid ∧
    r.updated_fields = (build_investment_properties_from_update body).map Prod.fst := by
  unfold update_investment at h
  dsimp only at h
  split at h
  · simp at h
  · split at h
    · simp at h
    · simp only [Except.ok.injEq] at h
      subst h
      exact ⟨rfl, rfl⟩

/-- **C10** (confirmed).  On every hub, a successful partial update responds
with the record id taken from the request path and with `updated_fields`
equal to the store column names in the builder's fixed field-check order
restricted to the fields present in the request; and the response is
independent of the value the store's update call returns. -/
theorem update_response_contract :
    (∀ (body : UpdateNotionTaskRequest) (pid : String) store r,
      (update_notion_task body pid store).2 = .ok r →
        r.task_id = pid ∧ r.updated_fields
          = (if body.task_title.isSome then ["Tarefa"] else [])
            ++ (if body.status.isSome then ["Estado"] else [])
            ++ (if body.priority.isSome then ["Prioridade"] else [])
            ++ (if body.planned_date.isSome then ["Data Planeada"] else [])
            ++ (if body.deadline.isSome then ["Deadline"] else [])
            ++ (if body.duration.isSome then ["Duração Estimada (min)"] else [])
            ++ (if body.energy_required.isSome then ["Energia Necessária"] else [])
            ++ (if body.area.isSome then ["Área da Vida"] else [])
            ++ (if body.notes.isSome then ["Notas"] else [])) ∧
    (∀ (body : UpdateNotionTaskRequest) (pid : String) (v w : Json),
      update_notion_task body pid (fun _ _ => .ok v)
        = update_notion_task body pid (fun _ _ => .ok w)) ∧
    (∀ (body : UpdateMovieRequest) (pid : String) store r,
      (update_movie body pid store).2 = .ok r →
        r.movie_id = pid ∧ r.updated_fields
          = (if body.title.isSome then ["Filme"] else [])
            ++ (if body.category.isSome then ["Categoria"] else [])
            ++ (if body.watched.isSome then ["Já Vi"] else [])
            ++ (if body.notes.isSome then ["Notas"] else [])) ∧
    (∀ (body : UpdateMovieRequest) (pid : String) (v w : Json),
      update_movie body pid (fun _ _ => .ok v)
        = update_movie body pid (fun _ _ => .ok w)) ∧
    (∀ (body : UpdateBookRequest) (pid : String) store r,
      (update_book body pid store).2 = .ok r →
        r.book_id = pid ∧ r.updated_fields
          = (if body.title.isSome then ["Título"] else [])
            ++ (if body.author.isSome then ["Autor"] else [])
            ++ (if body.status.isSome then ["Estado de leitura"] else [])
            ++ (if body.favorite.isSome then ["Favorito"] else [])
            ++ (if body.notes.isSome then ["Notas"] else [])) ∧
    (∀ (body : UpdateBookRequest) (pid : String) (v w : Json),
      update_book body pid (fun _ _ => .ok v)
        = update_book body pid (fun _ _ => .ok w)) ∧
    (∀ (body : UpdateQuoteRequest) (pid : String) store r,
      (update_quote body pid store).2 = .ok r →
        r.quote_id = pid ∧ r.updated_fields
          = (if body.text.isSome then ["Texto"] else [])
            ++ (if body.author.isSome then ["Autor"] else [])
            ++ (if body.source.isSome then ["Fonte"] else [])
            ++ (if body.category.isSome then ["Categoria"] else [])
            ++ (if body.favorite.isSome then ["Favorita"] else [])
            ++ (if body.notes.isSome then ["Notas"] else [])) ∧
    (∀ (body : UpdateQuoteRequest) (pid : String) (v w : Json),
      update_quote body pid (fun _ _ => .ok v)
        = update_quote body pid (fun _ _ => .ok w)) ∧
    (∀ (body : UpdateNoteRequest) (pid : String) store r,
      (update_note body pid store).2 = .ok r →
        r.note_id = pid ∧ r.updated_fields
          = (if body.title.isSome then ["Título / Nota"] else [])
            ++ (if body.category.isSome then ["Categoria"] else [])
            ++ (if body.emotional_energy.isSome then ["Energia emocional"] else [])
            ++ (if body.impact.isSome then ["Impacto"] else [])
            ++ (if body.favorite.isSome then ["Favorito"] else [])
            ++ (if body.date.isSome then ["Data"] else [])
            ++ (if body.details.isSome then ["Notas detalhadas"] else [])) ∧
    (∀ (body : UpdateNoteRequest) (pid : String) (v w : Json),
      update_note body pid (fun _ _ => .ok v)
        = update_note body pid (fun _ _ => .ok w)) ∧
    (∀ (body : UpdateInvestmentRequest) (pid : String) store r,
      (update_investment body pid store).2 = .ok r →
        r.investment_id = pid ∧ r.updated_fields
          = (if body.asset.isSome then ["Ativo"] else [])
            ++ (if body.quantity.isSome then ["Quantidade"] else [])
            ++ (if body.average_price_usd.isSome then ["Preço Médio (USD)"] else [])
            ++ (if body.last_price_usd.isSome then ["Último Preço Capturado (USD)"] else [])
            ++ (if body.aportes_totais_usd.isSome then ["Aportes Totais (USD)"] else [])
            ++ (if body.saldo_atual_usd.isSome then ["Saldo Atual (USD)"] else [])
            ++ (if body.lucro_usd.isSome then ["Lucro (USD)"] else [])
            ++ (if body.percent_lucro.isSome then ["% Lucro"] else [])
            ++ (if body.tipo_ativo.isSome then ["Tipo de Ativo"] else [])) ∧
    (∀ (body : UpdateInvestmentRequest) (pid : String) (v w : Json),
      update_investment body pid (fun _ _ => .ok v)
        = update_investment body pid (fun _ _ => .ok w)) := by
  refine ⟨?_, ?_, ?_, ?_, ?_, ?_, ?_, ?_, ?_, ?_, ?_, ?_⟩
  · intro body pid store r h
    have hc := update_notion_task_ok_contract body pid store r h
    rwa [update_notion_task_properties_keys] at hc
  · intro body pid v w
    rfl
  · intro body pid store r h
    have hc := update_movie_ok_contract body pid store r h
    rwa [update_movie_properties_keys] at hc
  · intro body pid v w
    rfl
  · intro body pid store r h
    have hc := update_book_ok_contract body pid store r h
    rwa [update_book_properties_keys] at hc
  · intro body pid v w
    rfl
  · intro body pid store r h
    have hc := update_quote_ok_contract body pid store r h
    rwa [update_quote_properties_keys] at hc
  · intro body pid v w
    rfl
  · intro body pid store r h
    have hc := update_note_ok_contract body pid store r h
    rwa [update_note_properties_keys] at hc
  · intro body pid v w
    rfl
  · intro body pid store r h
    have hc := update_investment_ok_contract body pid store r h
    rwa [build_investment_properties_from_update_keys] at hc
  · intro body pid v w
    rfl
